import Mathlib

/-!
Shallow embedding of `plaso/parsers/plist.py` (class `PlistParser`).

`PlistParser.Parse` is a Python generator: calling it allocates a suspended
generator and runs none of its body; the body executes only as the caller
advances the returned iterator.  We embed the body as the linear sequence of
observable events (`GenEvent`) it produces when the caller drives the
generator to a terminal state: external effects (`Effect`), yielded event
objects, a raised `errors.UnableToParseFile`, or normal completion
(`StopIteration`).  Advancement granularity is recovered from that sequence:
one `next()` call executes the effects up to and including the next yield,
raise or stop (see `firstAdvance`).

External collaborators are modelled as data: the file entry carries the
answers its file object would give (`get_size()` result, and the outcome of
`binplist.readPlist` on its stream), and the basename the file-system
abstraction would return for its path.  Plugin `Process` calls are modelled
as yielding a finite list of event objects and then either finishing or
raising `errors.WrongPlistPlugin` (the recoverable mismatch signal); other
exception classes escaping a plugin are outside the model, matching the
terminal outcomes the specification enumerates.
-/

namespace Plaso

/-- A deserialized property-list value as returned by `binplist.readPlist`:
nested dictionaries and arrays over a representative set of primitives.
Only the top-level constructor matters to the parser (Python truthiness). -/
inductive PlistVal where
  | dict (entries : List (String × PlistVal))
  | array (items : List PlistVal)
  | str (s : String)
  | int (n : Int)
  | boolean (b : Bool)
  | blob (bytes : List Nat)
  | pyNone
  deriving Repr

/-- Python truthiness (`bool(x)`) for a plist value: empty containers, the
empty string, zero, `False` and `None` are falsy, everything else truthy.
Used by the `if not top_level_object:` checks in the source. -/
def pyTruthy : PlistVal → Bool
  | PlistVal.dict entries => !entries.isEmpty
  | PlistVal.array items => !items.isEmpty
  | PlistVal.str s => !s.isEmpty
  | PlistVal.int n => n != 0
  | PlistVal.boolean b => b
  | PlistVal.blob bytes => !bytes.isEmpty
  | PlistVal.pyNone => false

/-- Outcome of invoking `binplist.readPlist` on a file object's stream:
either the fully decoded top-level value, or one of the exception classes
`PlistParser.GetTopLevel` catches — `binplist.FormatError`
(not a recognized container), the malformed-structure group
(`LookupError`, `binascii.Error`, `ValueError`, `AttributeError`),
or `OverflowError`.  Each failure carries its message string. -/
inductive DecodeResult where
  | ok (doc : PlistVal)
  | formatError (msg : String)
  | decodeError (msg : String)
  | overflowError (msg : String)
  deriving Repr

/-- An event object produced by a plugin: the `plugin` attribution attribute
(assigned by `Parse` before yielding) and the remaining artifact-specific
attributes, modelled as an opaque association list. -/
structure EventObject where
  plugin : String
  data : List (String × String)
  deriving Repr, DecidableEq

/-- The behaviour of one `PlistPlugin.Process(plist_name, top_level_object)`
call: the event objects the returned iterator yields, followed, when
`mismatch` is set, by an `errors.WrongPlistPlugin` exception carrying the
two arguments logged by `Parse` (`exception[0]`, `exception[1]`). -/
structure ProcessResult where
  events : List EventObject
  mismatch : Option (String × String)

/-- A registered plist plugin: its `plugin_name` identifier and its
`Process` behaviour as a function of the plist basename and the decoded
top-level value. -/
structure PlistPlugin where
  plugin_name : String
  Process : String → PlistVal → ProcessResult

/-- The file object returned by `file_entry.GetFileObject()`: the value its
`get_size()` reports and what `binplist.readPlist` does on its stream. -/
structure FileObject where
  size : Int
  contents : DecodeResult
  deriving Repr

/-- A file entry: its `name` path, its file object, and the basename the
external file system's `BasenamePath(file_entry.name)` returns. -/
structure FileEntry where
  name : String
  fileObject : FileObject
  basename : String
  deriving Repr

/-- Observable external effects of one `Parse` run. -/
inductive Effect where
  | getFileObject
  | getSize
  | close
  | readPlist
  | getFileSystem
  | basenamePath
  | processCall (pluginName : String)
  | logDebug (a b : String)
  deriving Repr, DecidableEq

/-- One event of a driven generator run: an external effect, a yielded
event object, a raised `errors.UnableToParseFile` with its message, or
normal completion (`StopIteration`). -/
inductive GenEvent where
  | eff (e : Effect)
  | yield (ev : EventObject)
  | raiseUPF (msg : String)
  | stop
  deriving Repr, DecidableEq

/-- `u'[PLIST] file size: {0:d} bytes is less equal 0.'.format(file_size)` -/
def msgSizeLE0 (file_size : Int) : String :=
  "[PLIST] file size: " ++ toString file_size ++ " bytes is less equal 0."

/-- `u'[PLIST] file size: {0:d} bytes is larger than 50 MB.'.format(file_size)` -/
def msgSizeTooLarge (file_size : Int) : String :=
  "[PLIST] file size: " ++ toString file_size ++ " bytes is larger than 50 MB."

/-- `u'[PLIST] File is not a plist file: {0:s}'` (on `binplist.FormatError`). -/
def msgNotPlistFile (m : String) : String :=
  "[PLIST] File is not a plist file: " ++ m

/-- `u'[PLIST] Unable to parse XML file, reason: {0:s}'` (on the
`LookupError`/`binascii.Error`/`ValueError`/`AttributeError` group). -/
def msgXmlFailure (m : String) : String :=
  "[PLIST] Unable to parse XML file, reason: " ++ m

/-- `u'[PLIST] Unable to parse: {0:s} with error: {1:s}'` (on `OverflowError`). -/
def msgOverflow (file_name m : String) : String :=
  "[PLIST] Unable to parse: " ++ file_name ++ " with error: " ++ m

/-- `u'[PLIST] File is not a plist: {0:s}'` (falsy top-level object in
`GetTopLevel`). -/
def msgNotPlist (file_name : String) : String :=
  "[PLIST] File is not a plist: " ++ file_name

/-- `u'[PLIST] unable to parse: {0:s} skipping.'` (the second emptiness
check inside `Parse`). -/
def msgSkipping (file_name : String) : String :=
  "[PLIST] unable to parse: " ++ file_name ++ " skipping."

/-- Modelled from the spec: `plugin.GetRegisteredPlugins`
(`plaso/lib/plugin.py`, not under `src/`) builds the plugin registry from
the available `PlistPlugin` implementations and the optional filter taken
from the configuration's `parsers` option — absent means every registered
plugin is enabled; present means only plugins whose identifier is in the
filter are registered, in the plugins' natural declaration order. -/
def GetRegisteredPlugins (available : List PlistPlugin)
    (filterOpt : Option (List String)) : List PlistPlugin :=
  match filterOpt with
  | none => available
  | some allowed => available.filter (fun p => p.plugin_name ∈ allowed)

/-- The parser state after `PlistParser.__init__`: the plugin registry
`self._plugins`, built once by `GetRegisteredPlugins` and read-only
afterwards. -/
structure PlistParser where
  plugins : List PlistPlugin

/-- `PlistParser.NAME` -/
def PlistParser.NAME : String := "plist"

/-- `PlistParser.__init__(pre_obj, config)`: reads
`getattr(self._config, 'parsers', None)` and builds `self._plugins`. -/
def PlistParser.init (available : List PlistPlugin)
    (plugin_filter : Option (List String)) : PlistParser :=
  ⟨GetRegisteredPlugins available plugin_filter⟩

/-- `PlistParser.GetTopLevel(file_object, file_name)`: invokes
`binplist.readPlist` (the `readPlist` effect), re-maps each caught decode
exception to `errors.UnableToParseFile` with a descriptive message, raises
the same error when the decoded top-level object is falsy, and otherwise
returns the top-level object. -/
def GetTopLevel (file_object : FileObject) (file_name : String := "") :
    List GenEvent × Except String PlistVal :=
  ([GenEvent.eff Effect.readPlist],
    match file_object.contents with
    | DecodeResult.ok top_level_object =>
        if pyTruthy top_level_object then Except.ok top_level_object
        else Except.error (msgNotPlist file_name)
    | DecodeResult.formatError m => Except.error (msgNotPlistFile m)
    | DecodeResult.decodeError m => Except.error (msgXmlFailure m)
    | DecodeResult.overflowError m => Except.error (msgOverflow file_name m))

/-- The `logging.debug` note `Parse` records when a plugin raises
`errors.WrongPlistPlugin`, as a function of the exception's two arguments. -/
def mismatchLog : Option (String × String) → List GenEvent
  | some ab => [GenEvent.eff (Effect.logDebug ab.1 ab.2)]
  | none => []

/-- One iteration of the plugin loop in `Parse`: call
`plist_plugin.Process(plist_name, top_level_object)`, for each produced
event object assign `event_object.plugin = plist_plugin.plugin_name` and
yield it, and on `errors.WrongPlistPlugin` record the debug note and fall
through to the next plugin. -/
def pluginEvents (plist_name : String) (top_level_object : PlistVal)
    (p : PlistPlugin) : List GenEvent :=
  GenEvent.eff (Effect.processCall p.plugin_name) ::
    ((p.Process plist_name top_level_object).events.map
        (fun ev => GenEvent.yield { ev with plugin := p.plugin_name }) ++
      mismatchLog (p.Process plist_name top_level_object).mismatch)

/-- The full plugin loop of `Parse`: `for plist_plugin in
self._plugins.itervalues(): ...`, one plugin at a time in registry order. -/
def dispatchEvents (plugins : List PlistPlugin) (plist_name : String)
    (top_level_object : PlistVal) : List GenEvent :=
  plugins.flatMap (pluginEvents plist_name top_level_object)

/-- `PlistParser.Parse(file_entry)`, embedded as the event sequence the
generator produces when the caller drives it to a terminal state:
get the file object and its size, apply both size checks, call
`GetTopLevel` (closing and re-raising on `errors.UnableToParseFile`),
re-check the top-level object for emptiness, run the plugin loop, and
close the file object. -/
def PlistParser.Parse (self : PlistParser) (file_entry : FileEntry) :
    List GenEvent :=
  GenEvent.eff Effect.getFileObject :: GenEvent.eff Effect.getSize ::
    (if file_entry.fileObject.size ≤ 0 then
      [GenEvent.eff Effect.close,
        GenEvent.raiseUPF (msgSizeLE0 file_entry.fileObject.size)]
    else if file_entry.fileObject.size > 50000000 then
      [GenEvent.eff Effect.close,
        GenEvent.raiseUPF (msgSizeTooLarge file_entry.fileObject.size)]
    else
      (GetTopLevel file_entry.fileObject file_entry.name).1 ++
        match (GetTopLevel file_entry.fileObject file_entry.name).2 with
        | Except.error m => [GenEvent.eff Effect.close, GenEvent.raiseUPF m]
        | Except.ok top_level_object =>
            if pyTruthy top_level_object = false then
              [GenEvent.eff Effect.close,
                GenEvent.raiseUPF (msgSkipping file_entry.name)]
            else
              GenEvent.eff Effect.getFileSystem ::
                GenEvent.eff Effect.basenamePath ::
                  (dispatchEvents self.plugins file_entry.basename
                      top_level_object ++
                    [GenEvent.eff Effect.close, GenEvent.stop]))

/-- Does a generator event close the file object? -/
def isClose : GenEvent → Bool
  | GenEvent.eff Effect.close => true
  | _ => false

/-- How many times a run closes the file object. -/
def closeCount (l : List GenEvent) : Nat := l.countP isClose

/-- The event object a generator event yields, if any. -/
def yieldOf : GenEvent → Option EventObject
  | GenEvent.yield ev => some ev
  | _ => none

/-- The event objects a run yields to the caller, in order. -/
def yieldedEvents (l : List GenEvent) : List EventObject := l.filterMap yieldOf

/-- The prefix of a run executed by the first `next()` call on the
generator: every effect up to and including the first yield, raise or
normal completion. -/
def firstAdvance : List GenEvent → List GenEvent
  | [] => []
  | GenEvent.eff e :: rest => GenEvent.eff e :: firstAdvance rest
  | e :: _ => [e]

/-- Modelled from Python generator-function semantics: because the body of
`PlistParser.Parse` contains `yield`, calling `Parse` only allocates a
suspended generator object; no statement of the body executes and no
external effect is observable at call time.  The body's events
(`PlistParser.Parse` above) occur only as the caller advances the
generator. -/
def parseCallEffects (_self : PlistParser) (_file_entry : FileEntry) :
    List Effect := []

/-- `PlistParser.Parse` with the second emptiness check (the
`if not top_level_object:` re-check after `GetTopLevel` has returned)
removed.  Used to state that the removed branch is unreachable. -/
def parseWithoutRecheck (self : PlistParser) (file_entry : FileEntry) :
    List GenEvent :=
  GenEvent.eff Effect.getFileObject :: GenEvent.eff Effect.getSize ::
    (if file_entry.fileObject.size ≤ 0 then
      [GenEvent.eff Effect.close,
        GenEvent.raiseUPF (msgSizeLE0 file_entry.fileObject.size)]
    else if file_entry.fileObject.size > 50000000 then
      [GenEvent.eff Effect.close,
        GenEvent.raiseUPF (msgSizeTooLarge file_entry.fileObject.size)]
    else
      (GetTopLevel file_entry.fileObject file_entry.name).1 ++
        match (GetTopLevel file_entry.fileObject file_entry.name).2 with
        | Except.error m => [GenEvent.eff Effect.close, GenEvent.raiseUPF m]
        | Except.ok top_level_object =>
            GenEvent.eff Effect.getFileSystem ::
              GenEvent.eff Effect.basenamePath ::
                (dispatchEvents self.plugins file_entry.basename
                    top_level_object ++
                  [GenEvent.eff Effect.close, GenEvent.stop]))

/-- The event sequence of a `Parse` run whose decode stage fails with the
given re-mapped message: deserialization attempted, file object closed,
error re-raised to the caller. -/
def decodeFailTrace (m : String) : List GenEvent :=
  [GenEvent.eff Effect.getFileObject, GenEvent.eff Effect.getSize,
    GenEvent.eff Effect.readPlist, GenEvent.eff Effect.close,
    GenEvent.raiseUPF m]

/-- Sample decoded document `{"foo": "bar"}`. -/
def sampleDoc : PlistVal := PlistVal.dict [("foo", PlistVal.str "bar")]

/-- Sample event object as a plugin produces it (attribution unset). -/
def sampleEvent1 : EventObject := { plugin := "", data := [("path", "/a")] }

/-- A second sample event object. -/
def sampleEvent2 : EventObject := { plugin := "", data := [("path", "/b")] }

/-- Sample plugin `H1`: recognizes every document, emits `sampleEvent1`. -/
def pluginH1 : PlistPlugin :=
  { plugin_name := "H1",
    Process := fun _ _ => { events := [sampleEvent1], mismatch := none } }

/-- Sample plugin `H2`: recognizes every document, emits `sampleEvent2`. -/
def pluginH2 : PlistPlugin :=
  { plugin_name := "H2",
    Process := fun _ _ => { events := [sampleEvent2], mismatch := none } }

/-- Sample plugin `MM`: raises `errors.WrongPlistPlugin` on every document. -/
def pluginMM : PlistPlugin :=
  { plugin_name := "MM",
    Process := fun _ _ =>
      { events := [], mismatch := some ("MM", "mydoc.plist") } }

/-- Sample plugin `A` (for the filter property). -/
def pluginA : PlistPlugin :=
  { plugin_name := "A",
    Process := fun _ _ => { events := [sampleEvent1], mismatch := none } }

/-- Sample plugin `B` (for the filter property). -/
def pluginB : PlistPlugin :=
  { plugin_name := "B",
    Process := fun _ _ => { events := [sampleEvent2], mismatch := none } }

/-- Sample file entry whose stream decodes to `sampleDoc`. -/
def entryOk : FileEntry :=
  { name := "dir/mydoc.plist",
    fileObject := { size := 100, contents := DecodeResult.ok sampleDoc },
    basename := "mydoc.plist" }

/-- Sample file entry whose stream decodes to an empty dictionary. -/
def entryEmptyDoc : FileEntry :=
  { name := "dir/mydoc.plist",
    fileObject := { size := 100,
                    contents := DecodeResult.ok (PlistVal.dict []) },
    basename := "mydoc.plist" }

/-- Sample file entry whose reported size is `0`. -/
def entryZeroSize : FileEntry :=
  { name := "dir/mydoc.plist",
    fileObject := { size := 0, contents := DecodeResult.ok sampleDoc },
    basename := "mydoc.plist" }

/-- Sample file entry whose reported size exceeds the 50,000,000 ceiling. -/
def entryHuge : FileEntry :=
  { name := "dir/mydoc.plist",
    fileObject := { size := 50000001, contents := DecodeResult.ok sampleDoc },
    basename := "mydoc.plist" }

/-- Sample file entry whose stream raises `binplist.FormatError`. -/
def entryFormatErr : FileEntry :=
  { name := "dir/mydoc.plist",
    fileObject := { size := 100,
                    contents := DecodeResult.formatError "Invalid magic" },
    basename := "mydoc.plist" }

theorem yieldedEvents_append (a b : List GenEvent) :
    yieldedEvents (a ++ b) = yieldedEvents a ++ yieldedEvents b :=
  List.filterMap_append a b yieldOf

theorem yieldedEvents_mismatchLog (m : Option (String × String)) :
    yieldedEvents (mismatchLog m) = [] := by
  cases m <;> rfl

theorem filterMap_yieldOf_map_yield (f : EventObject → EventObject)
    (evs : List EventObject) :
    (evs.map (fun ev => GenEvent.yield (f ev))).filterMap yieldOf =
      evs.map f := by
  induction evs with
  | nil => rfl
  | cons e es ih => simp [List.filterMap_cons, yieldOf, ih]

theorem yieldedEvents_pluginEvents (n : String) (t : PlistVal)
    (p : PlistPlugin) :
    yieldedEvents (pluginEvents n t p) =
      (p.Process n t).events.map
        (fun ev => { ev with plugin := p.plugin_name }) := by
  unfold pluginEvents yieldedEvents
  rw [List.filterMap_cons]
  show (((p.Process n t).events.map _) ++ _).filterMap yieldOf = _
  rw [List.filterMap_append, filterMap_yieldOf_map_yield]
  have h := yieldedEvents_mismatchLog (p.Process n t).mismatch
  unfold yieldedEvents at h
  rw [h, List.append_nil]

theorem yieldedEvents_dispatchEvents (plugins : List PlistPlugin)
    (n : String) (t : PlistVal) :
    yieldedEvents (dispatchEvents plugins n t) =
      plugins.flatMap (fun p => (p.Process n t).events.map
        (fun ev => { ev with plugin := p.plugin_name })) := by
  induction plugins with
  | nil => rfl
  | cons p ps ih =>
    rw [dispatchEvents, List.flatMap_cons, yieldedEvents_append,
      yieldedEvents_pluginEvents, List.flatMap_cons]
    rw [dispatchEvents] at ih
    rw [ih]

theorem mem_pluginEvents (n : String) (t : PlistVal) (p : PlistPlugin)
    (e : GenEvent) (he : e ∈ pluginEvents n t p) :
    e = GenEvent.eff (Effect.processCall p.plugin_name) ∨
      (∃ ev ∈ (p.Process n t).events,
        e = GenEvent.yield { ev with plugin := p.plugin_name }) ∨
      (∃ ab, (p.Process n t).mismatch = some ab ∧
        e = GenEvent.eff (Effect.logDebug ab.1 ab.2)) := by
  unfold pluginEvents at he
  rcases List.mem_cons.mp he with h | h
  · exact Or.inl h
  rcases List.mem_append.mp h with h | h
  · rcases List.mem_map.mp h with ⟨ev, hev, rfl⟩
    exact Or.inr (Or.inl ⟨ev, hev, rfl⟩)
  · cases hm : (p.Process n t).mismatch with
    | none => rw [hm] at h; simp [mismatchLog] at h
    | some ab =>
      rw [hm] at h
      simp only [mismatchLog, List.mem_singleton] at h
      exact Or.inr (Or.inr ⟨ab, rfl, h⟩)

theorem mem_dispatchEvents (plugins : List PlistPlugin) (n : String)
    (t : PlistVal) (e : GenEvent) (he : e ∈ dispatchEvents plugins n t) :
    ∃ p ∈ plugins, e ∈ pluginEvents n t p :=
  List.mem_flatMap.mp he

theorem dispatch_countP_isClose (plugins : List PlistPlugin) (n : String)
    (t : PlistVal) : (dispatchEvents plugins n t).countP isClose = 0 := by
  rw [List.countP_eq_zero]
  intro e he
  rcases mem_dispatchEvents plugins n t e he with ⟨p, _, hp⟩
  rcases mem_pluginEvents n t p e hp with rfl | ⟨ev, _, rfl⟩ | ⟨ab, _, rfl⟩ <;>
    simp [isClose]

theorem dispatch_no_raise (plugins : List PlistPlugin) (n : String)
    (t : PlistVal) (m : String) :
    GenEvent.raiseUPF m ∉ dispatchEvents plugins n t := by
  intro he
  rcases mem_dispatchEvents plugins n t _ he with ⟨p, _, hp⟩
  rcases mem_pluginEvents n t p _ hp with h | ⟨ev, _, h⟩ | ⟨ab, _, h⟩ <;>
    exact GenEvent.noConfusion h

theorem dispatch_no_stop (plugins : List PlistPlugin) (n : String)
    (t : PlistVal) : GenEvent.stop ∉ dispatchEvents plugins n t := by
  intro he
  rcases mem_dispatchEvents plugins n t _ he with ⟨p, _, hp⟩
  rcases mem_pluginEvents n t p _ hp with h | ⟨ev, _, h⟩ | ⟨ab, _, h⟩ <;>
    exact GenEvent.noConfusion h

/-- C1: for every parser state and every file entry, a driven `Parse` run —
size violation, decode failure, empty result, plugin mismatches, or
successful exhaustion of the record sequence — closes the file object
exactly once, never zero times and never twice. -/
theorem Parse_closes_exactly_once (self : PlistParser) (fe : FileEntry) :
    closeCount (PlistParser.Parse self fe) = 1 := by
  unfold PlistParser.Parse closeCount
  split
  · rfl
  split
  · rfl
  simp only [GetTopLevel]
  split
  · rfl
  split
  · rfl
  simp +decide only [List.countP_cons, List.countP_append, List.countP_nil,
    dispatch_countP_isClose]

theorem yieldedEvents_eff_cons (e : Effect) (l : List GenEvent) :
    yieldedEvents (GenEvent.eff e :: l) = yieldedEvents l := by
  simp [yieldedEvents, List.filterMap_cons, yieldOf]

theorem Parse_success_trace (self : PlistParser) (fe : FileEntry)
    (doc : PlistVal)
    (hs0 : 0 < fe.fileObject.size) (hs1 : fe.fileObject.size ≤ 50000000)
    (hdec : fe.fileObject.contents = DecodeResult.ok doc)
    (htruthy : pyTruthy doc = true) :
    PlistParser.Parse self fe =
      GenEvent.eff Effect.getFileObject :: GenEvent.eff Effect.getSize ::
        GenEvent.eff Effect.readPlist :: GenEvent.eff Effect.getFileSystem ::
          GenEvent.eff Effect.basenamePath ::
            (dispatchEvents self.plugins fe.basename doc ++
              [GenEvent.eff Effect.close, GenEvent.stop]) := by
  unfold PlistParser.Parse
  rw [if_neg (by omega), if_neg (by omega)]
  simp [GetTopLevel, hdec, htruthy]

theorem Parse_cases (self : PlistParser) (fe : FileEntry) :
    (∃ m, PlistParser.Parse self fe =
      [GenEvent.eff Effect.getFileObject, GenEvent.eff Effect.getSize,
        GenEvent.eff Effect.close, GenEvent.raiseUPF m]) ∨
    (∃ m, PlistParser.Parse self fe =
      [GenEvent.eff Effect.getFileObject, GenEvent.eff Effect.getSize,
        GenEvent.eff Effect.readPlist, GenEvent.eff Effect.close,
        GenEvent.raiseUPF m]) ∨
    (∃ doc, pyTruthy doc = true ∧
      PlistParser.Parse self fe =
        GenEvent.eff Effect.getFileObject :: GenEvent.eff Effect.getSize ::
          GenEvent.eff Effect.readPlist :: GenEvent.eff Effect.getFileSystem ::
            GenEvent.eff Effect.basenamePath ::
              (dispatchEvents self.plugins fe.basename doc ++
                [GenEvent.eff Effect.close, GenEvent.stop])) := by
  unfold PlistParser.Parse
  split
  · exact Or.inl ⟨_, rfl⟩
  split
  · exact Or.inl ⟨_, rfl⟩
  simp only [GetTopLevel]
  split
  · rename_i m hm
    exact Or.inr (Or.inl ⟨m, by simp⟩)
  rename_i t ht
  split
  · exact Or.inr (Or.inl ⟨msgSkipping fe.name, by simp⟩)
  rename_i hfalse
  refine Or.inr (Or.inr ⟨t, ?_, by simp⟩)
  cases hpt : pyTruthy t with
  | false => exact absurd hpt hfalse
  | true => rfl

theorem processCall_mem_Parse (self : PlistParser) (fe : FileEntry)
    (s : String)
    (h : GenEvent.eff (Effect.processCall s) ∈ PlistParser.Parse self fe) :
    ∃ p ∈ self.plugins, p.plugin_name = s := by
  rcases Parse_cases self fe with ⟨m, hT⟩ | ⟨m, hT⟩ | ⟨doc, _, hT⟩ <;>
    rw [hT] at h <;> simp at h
  rcases mem_dispatchEvents _ _ _ _ h with ⟨p, hp, hpe⟩
  rcases mem_pluginEvents _ _ p _ hpe with he | ⟨ev, _, he⟩ | ⟨ab, _, he⟩
  · cases he
    exact ⟨p, hp, rfl⟩
  · exact absurd he (by simp)
  · exact absurd he (by simp)

/-- C3: for every input whose reported byte size is ≤ 0 and for every input
whose reported byte size is > 50,000,000, `Parse` raises the size-violation
`errors.UnableToParseFile`, closes the file object exactly once, and the
check happens before any byte is read: `binplist.readPlist` is never
invoked. -/
theorem Parse_size_violation_before_read (self : PlistParser)
    (fe : FileEntry) :
    (fe.fileObject.size ≤ 0 →
      PlistParser.Parse self fe =
        [GenEvent.eff Effect.getFileObject, GenEvent.eff Effect.getSize,
          GenEvent.eff Effect.close,
          GenEvent.raiseUPF (msgSizeLE0 fe.fileObject.size)]) ∧
    (50000000 < fe.fileObject.size →
      PlistParser.Parse self fe =
        [GenEvent.eff Effect.getFileObject, GenEvent.eff Effect.getSize,
          GenEvent.eff Effect.close,
          GenEvent.raiseUPF (msgSizeTooLarge fe.fileObject.size)]) ∧
    ((fe.fileObject.size ≤ 0 ∨ 50000000 < fe.fileObject.size) →
      closeCount (PlistParser.Parse self fe) = 1 ∧
      GenEvent.eff Effect.readPlist ∉ PlistParser.Parse self fe) := by
  have h1 : fe.fileObject.size ≤ 0 →
      PlistParser.Parse self fe =
        [GenEvent.eff Effect.getFileObject, GenEvent.eff Effect.getSize,
          GenEvent.eff Effect.close,
          GenEvent.raiseUPF (msgSizeLE0 fe.fileObject.size)] := by
    intro h
    unfold PlistParser.Parse
    rw [if_pos h]
  have h2 : 50000000 < fe.fileObject.size →
      PlistParser.Parse self fe =
        [GenEvent.eff Effect.getFileObject, GenEvent.eff Effect.getSize,
          GenEvent.eff Effect.close,
          GenEvent.raiseUPF (msgSizeTooLarge fe.fileObject.size)] := by
    intro h
    unfold PlistParser.Parse
    rw [if_neg (by omega), if_pos h]
  refine ⟨h1, h2, ?_⟩
  rintro (h | h)
  · rw [h1 h]
    exact ⟨rfl, by simp⟩
  · rw [h2 h]
    exact ⟨rfl, by simp⟩

/-- Witness for C3: the zero-size sample entry raises the size violation
after closing the file object, without reading a byte. -/
theorem Parse_size_violation_before_read_witness :
    (PlistParser.init [pluginH1] none).Parse entryZeroSize =
      [GenEvent.eff Effect.getFileObject, GenEvent.eff Effect.getSize,
        GenEvent.eff Effect.close, GenEvent.raiseUPF (msgSizeLE0 0)] :=
  (Parse_size_violation_before_read (PlistParser.init [pluginH1] none)
    entryZeroSize).1 (by decide)

/-- C4: every decode failure caught by `GetTopLevel` — `binplist.FormatError`,
the `LookupError`/`binascii.Error`/`ValueError`/`AttributeError` group, and
`OverflowError` — is re-mapped to `errors.UnableToParseFile` with a
descriptive message; on such a failure `Parse` closes the file object and
re-raises that error; and a top-level document is only ever returned when
the decoder produced it whole. -/
theorem GetTopLevel_decode_failures_remapped (self : PlistParser)
    (fe : FileEntry)
    (hs0 : 0 < fe.fileObject.size) (hs1 : fe.fileObject.size ≤ 50000000) :
    (∀ m, fe.fileObject.contents = DecodeResult.formatError m →
      (GetTopLevel fe.fileObject fe.name).2 =
        Except.error (msgNotPlistFile m) ∧
      PlistParser.Parse self fe = decodeFailTrace (msgNotPlistFile m)) ∧
    (∀ m, fe.fileObject.contents = DecodeResult.decodeError m →
      (GetTopLevel fe.fileObject fe.name).2 =
        Except.error (msgXmlFailure m) ∧
      PlistParser.Parse self fe = decodeFailTrace (msgXmlFailure m)) ∧
    (∀ m, fe.fileObject.contents = DecodeResult.overflowError m →
      (GetTopLevel fe.fileObject fe.name).2 =
        Except.error (msgOverflow fe.name m) ∧
      PlistParser.Parse self fe = decodeFailTrace (msgOverflow fe.name m)) ∧
    (∀ doc, (GetTopLevel fe.fileObject fe.name).2 = Except.ok doc →
      fe.fileObject.contents = DecodeResult.ok doc) := by
  refine ⟨?_, ?_, ?_, ?_⟩
  · intro m hm
    constructor
    · simp [GetTopLevel, hm]
    · unfold PlistParser.Parse
      rw [if_neg (by omega), if_neg (by omega)]
      simp [GetTopLevel, hm, decodeFailTrace]
  · intro m hm
    constructor
    · simp [GetTopLevel, hm]
    · unfold PlistParser.Parse
      rw [if_neg (by omega), if_neg (by omega)]
      simp [GetTopLevel, hm, decodeFailTrace]
  · intro m hm
    constructor
    · simp [GetTopLevel, hm]
    · unfold PlistParser.Parse
      rw [if_neg (by omega), if_neg (by omega)]
      simp [GetTopLevel, hm, decodeFailTrace]
  · intro doc h
    cases hc : fe.fileObject.contents with
    | ok t =>
      simp only [GetTopLevel, hc] at h
      by_cases hpt : pyTruthy t = true
      · rw [if_pos hpt] at h
        injection h with h'
        rw [h']
      · rw [if_neg hpt] at h
        exact absurd h (by simp)
    | formatError m => simp [GetTopLevel, hc] at h
    | decodeError m => simp [GetTopLevel, hc] at h
    | overflowError m => simp [GetTopLevel, hc] at h

/-- Witness for C4: a stream raising `binplist.FormatError` is re-mapped to
the descriptive `errors.UnableToParseFile` and `Parse` closes then
re-raises. -/
theorem GetTopLevel_decode_failures_remapped_witness :
    (GetTopLevel entryFormatErr.fileObject entryFormatErr.name).2 =
      Except.error (msgNotPlistFile "Invalid magic") ∧
    (PlistParser.init [pluginH1] none).Parse entryFormatErr =
      decodeFailTrace (msgNotPlistFile "Invalid magic") :=
  (GetTopLevel_decode_failures_remapped (PlistParser.init [pluginH1] none)
    entryFormatErr (by decide) (by decide)).1 "Invalid magic" rfl

/-- C5: when the stream decodes successfully but the top-level document is
empty/falsy, `Parse` raises `errors.UnableToParseFile` (the empty-result
kind, raised inside `GetTopLevel`), closes the file object, never invokes
any plugin, and yields nothing. -/
theorem Parse_empty_document_fails (self : PlistParser) (fe : FileEntry)
    (doc : PlistVal)
    (hs0 : 0 < fe.fileObject.size) (hs1 : fe.fileObject.size ≤ 50000000)
    (hdec : fe.fileObject.contents = DecodeResult.ok doc)
    (hfalsy : pyTruthy doc = false) :
    PlistParser.Parse self fe = decodeFailTrace (msgNotPlist fe.name) ∧
    (∀ s, GenEvent.eff (Effect.processCall s) ∉ PlistParser.Parse self fe) ∧
    yieldedEvents (PlistParser.Parse self fe) = [] := by
  have hT : PlistParser.Parse self fe =
      decodeFailTrace (msgNotPlist fe.name) := by
    unfold PlistParser.Parse
    rw [if_neg (by omega), if_neg (by omega)]
    simp [GetTopLevel, hdec, hfalsy, decodeFailTrace]
  refine ⟨hT, ?_, ?_⟩
  · intro s
    rw [hT]
    simp [decodeFailTrace]
  · rw [hT]
    rfl

/-- Witness for C5: the sample entry decoding to an empty dictionary fails
with the empty-result error, calls no plugin, and yields nothing. -/
theorem Parse_empty_document_fails_witness :
    (PlistParser.init [pluginH1] none).Parse entryEmptyDoc =
      decodeFailTrace (msgNotPlist "dir/mydoc.plist") ∧
    (∀ s, GenEvent.eff (Effect.processCall s) ∉
      (PlistParser.init [pluginH1] none).Parse entryEmptyDoc) ∧
    yieldedEvents ((PlistParser.init [pluginH1] none).Parse entryEmptyDoc) =
      [] :=
  Parse_empty_document_fails (PlistParser.init [pluginH1] none) entryEmptyDoc
    (PlistVal.dict []) (by decide) (by decide) rfl rfl

theorem Parse_yieldedEvents_eq (self : PlistParser) (fe : FileEntry)
    (doc : PlistVal)
    (hs0 : 0 < fe.fileObject.size) (hs1 : fe.fileObject.size ≤ 50000000)
    (hdec : fe.fileObject.contents = DecodeResult.ok doc)
    (htruthy : pyTruthy doc = true) :
    yieldedEvents (PlistParser.Parse self fe) =
      self.plugins.flatMap (fun p => ((p.Process fe.basename doc).events).map
        (fun ev => { ev with plugin := p.plugin_name })) := by
  rw [Parse_success_trace self fe doc hs0 hs1 hdec htruthy,
    yieldedEvents_eff_cons, yieldedEvents_eff_cons, yieldedEvents_eff_cons,
    yieldedEvents_eff_cons, yieldedEvents_eff_cons, yieldedEvents_append,
    yieldedEvents_dispatchEvents]
  have htail : yieldedEvents [GenEvent.eff Effect.close, GenEvent.stop] =
      [] := rfl
  rw [htail, List.append_nil]

/-- C2: on any successfully decoded document and any registry, a plugin
raising `errors.WrongPlistPlugin` never aborts the parse: no failure is
ever raised on the dispatch path and the run completes normally; every
registered plugin is invoked (the loop continues past any mismatch); each
mismatch is recorded as a `logging.debug` note; sibling plugins'
records are forwarded unaffected; and in particular, when every plugin
signals the mismatch, `Parse` succeeds and yields an empty sequence. -/
theorem Parse_mismatch_isolated (self : PlistParser)
    (fe : FileEntry) (doc : PlistVal)
    (hs0 : 0 < fe.fileObject.size) (hs1 : fe.fileObject.size ≤ 50000000)
    (hdec : fe.fileObject.contents = DecodeResult.ok doc)
    (htruthy : pyTruthy doc = true) :
    (∀ m, GenEvent.raiseUPF m ∉ PlistParser.Parse self fe) ∧
    (PlistParser.Parse self fe).getLast? = some GenEvent.stop ∧
    (∀ p ∈ self.plugins,
      GenEvent.eff (Effect.processCall p.plugin_name) ∈
        PlistParser.Parse self fe) ∧
    (∀ p ∈ self.plugins, ∀ ab,
      (p.Process fe.basename doc).mismatch = some ab →
      GenEvent.eff (Effect.logDebug ab.1 ab.2) ∈
        PlistParser.Parse self fe) ∧
    yieldedEvents (PlistParser.Parse self fe) =
      self.plugins.flatMap (fun p => ((p.Process fe.basename doc).events).map
        (fun ev => { ev with plugin := p.plugin_name })) ∧
    ((∀ p ∈ self.plugins, (p.Process fe.basename doc).events = [] ∧
        (p.Process fe.basename doc).mismatch.isSome = true) →
      yieldedEvents (PlistParser.Parse self fe) = []) := by
  have hT := Parse_success_trace self fe doc hs0 hs1 hdec htruthy
  have hy := Parse_yieldedEvents_eq self fe doc hs0 hs1 hdec htruthy
  refine ⟨?_, ?_, ?_, ?_, hy, ?_⟩
  · intro m hm
    rw [hT] at hm
    simp at hm
    exact dispatch_no_raise self.plugins fe.basename doc m hm
  · rw [hT]
    have hsplit : GenEvent.eff Effect.getFileObject ::
        GenEvent.eff Effect.getSize :: GenEvent.eff Effect.readPlist ::
          GenEvent.eff Effect.getFileSystem ::
            GenEvent.eff Effect.basenamePath ::
              (dispatchEvents self.plugins fe.basename doc ++
                [GenEvent.eff Effect.close, GenEvent.stop]) =
        (GenEvent.eff Effect.getFileObject :: GenEvent.eff Effect.getSize ::
          GenEvent.eff Effect.readPlist :: GenEvent.eff Effect.getFileSystem ::
            GenEvent.eff Effect.basenamePath ::
              (dispatchEvents self.plugins fe.basename doc ++
                [GenEvent.eff Effect.close])) ++ [GenEvent.stop] := by
      simp
    rw [hsplit, List.getLast?_concat]
  · intro p hp
    rw [hT]
    have hmem : GenEvent.eff (Effect.processCall p.plugin_name) ∈
        pluginEvents fe.basename doc p := List.mem_cons_self _ _
    have hd : GenEvent.eff (Effect.processCall p.plugin_name) ∈
        dispatchEvents self.plugins fe.basename doc :=
      List.mem_flatMap.mpr ⟨p, hp, hmem⟩
    simp [hd]
  · intro p hp ab hab
    rw [hT]
    have hmem : GenEvent.eff (Effect.logDebug ab.1 ab.2) ∈
        pluginEvents fe.basename doc p := by
      refine List.mem_cons_of_mem _ (List.mem_append_right _ ?_)
      rw [hab]
      exact List.mem_singleton_self _
    have hd : GenEvent.eff (Effect.logDebug ab.1 ab.2) ∈
        dispatchEvents self.plugins fe.basename doc :=
      List.mem_flatMap.mpr ⟨p, hp, hmem⟩
    simp [hd]
  · intro hmm
    rw [hy, List.flatMap_eq_nil_iff]
    intro p hp
    rw [(hmm p hp).1]
    rfl

/-- Witness for C2: in the mixed registry `[pluginMM, pluginH2]` — a
mismatching plugin followed by a producing sibling — the sample parse
raises nothing, completes normally, still invokes `H2` after `MM`'s
mismatch, records `MM`'s debug note, and forwards `H2`'s record
unaffected; and with the all-mismatch registry `[pluginMM]` the parse
yields the empty sequence. -/
theorem Parse_mismatch_isolated_witness :
    (∀ m, GenEvent.raiseUPF m ∉
      (PlistParser.init [pluginMM, pluginH2] none).Parse entryOk) ∧
    ((PlistParser.init [pluginMM, pluginH2] none).Parse entryOk).getLast? =
      some GenEvent.stop ∧
    GenEvent.eff (Effect.processCall "H2") ∈
      (PlistParser.init [pluginMM, pluginH2] none).Parse entryOk ∧
    GenEvent.eff (Effect.logDebug "MM" "mydoc.plist") ∈
      (PlistParser.init [pluginMM, pluginH2] none).Parse entryOk ∧
    yieldedEvents ((PlistParser.init [pluginMM, pluginH2] none).Parse
        entryOk) = [{ sampleEvent2 with plugin := "H2" }] ∧
    yieldedEvents ((PlistParser.init [pluginMM] none).Parse entryOk) = [] :=
  ⟨(Parse_mismatch_isolated (PlistParser.init [pluginMM, pluginH2] none)
      entryOk sampleDoc (by decide) (by decide) rfl rfl).1,
    (Parse_mismatch_isolated (PlistParser.init [pluginMM, pluginH2] none)
      entryOk sampleDoc (by decide) (by decide) rfl rfl).2.1,
    (Parse_mismatch_isolated (PlistParser.init [pluginMM, pluginH2] none)
      entryOk sampleDoc (by decide) (by decide) rfl rfl).2.2.1 pluginH2
      (List.mem_cons_of_mem _ (List.mem_cons_self _ _)),
    (Parse_mismatch_isolated (PlistParser.init [pluginMM, pluginH2] none)
      entryOk sampleDoc (by decide) (by decide) rfl rfl).2.2.2.1 pluginMM
      (List.mem_cons_self _ _) ("MM", "mydoc.plist") rfl,
    ((Parse_mismatch_isolated (PlistParser.init [pluginMM, pluginH2] none)
      entryOk sampleDoc (by decide) (by decide) rfl rfl).2.2.2.2.1).trans
      (by decide),
    (Parse_mismatch_isolated (PlistParser.init [pluginMM] none)
      entryOk sampleDoc (by decide) (by decide) rfl rfl).2.2.2.2.2
      (by
        intro p hp
        simp only [PlistParser.init, GetRegisteredPlugins,
          List.mem_singleton] at hp
        subst hp
        exact ⟨rfl, rfl⟩)⟩

/-- C6: plugins run one at a time in registry order, and every record of
plugin `i` appears in the output before any record of plugin `i + 1`; in
particular, for a registry `[h1, h2]` all of `h1`'s records precede all of
`h2`'s. -/
theorem Parse_plugin_order_preserved (self : PlistParser) (fe : FileEntry)
    (doc : PlistVal) (h1 h2 : PlistPlugin)
    (hs0 : 0 < fe.fileObject.size) (hs1 : fe.fileObject.size ≤ 50000000)
    (hdec : fe.fileObject.contents = DecodeResult.ok doc)
    (htruthy : pyTruthy doc = true) :
    yieldedEvents (PlistParser.Parse self fe) =
      self.plugins.flatMap (fun p => ((p.Process fe.basename doc).events).map
        (fun ev => { ev with plugin := p.plugin_name })) ∧
    (self.plugins = [h1, h2] →
      yieldedEvents (PlistParser.Parse self fe) =
        ((h1.Process fe.basename doc).events).map
          (fun ev => { ev with plugin := h1.plugin_name }) ++
        ((h2.Process fe.basename doc).events).map
          (fun ev => { ev with plugin := h2.plugin_name })) := by
  have hT := Parse_success_trace self fe doc hs0 hs1 hdec htruthy
  have hy : yieldedEvents (PlistParser.Parse self fe) =
      self.plugins.flatMap (fun p => ((p.Process fe.basename doc).events).map
        (fun ev => { ev with plugin := p.plugin_name })) := by
    rw [hT, yieldedEvents_eff_cons, yieldedEvents_eff_cons,
      yieldedEvents_eff_cons, yieldedEvents_eff_cons, yieldedEvents_eff_cons,
      yieldedEvents_append, yieldedEvents_dispatchEvents]
    have : yieldedEvents [GenEvent.eff Effect.close, GenEvent.stop] = [] := rfl
    rw [this, List.append_nil]
  refine ⟨hy, ?_⟩
  intro hps
  rw [hy, hps]
  simp

/-- Witness for C6: registry `[pluginH1, pluginH2]` on the sample document
yields `H1`'s record before `H2`'s. -/
theorem Parse_plugin_order_preserved_witness :
    yieldedEvents ((PlistParser.init [pluginH1, pluginH2] none).Parse
        entryOk) =
      [{ sampleEvent1 with plugin := "H1" },
        { sampleEvent2 with plugin := "H2" }] :=
  ((Parse_plugin_order_preserved (PlistParser.init [pluginH1, pluginH2] none)
    entryOk sampleDoc pluginH1 pluginH2 (by decide) (by decide) rfl rfl).2
    rfl).trans (by simp [pluginH1, pluginH2])

/-- C7: every event object `Parse` yields carries the producing plugin's
identifier in its `plugin` attribute — assigned by `Parse` right before the
yield — and is otherwise exactly the object the plugin produced: no other
attribute is modified. -/
theorem Parse_stamps_plugin_attribution (self : PlistParser)
    (fe : FileEntry) (doc : PlistVal)
    (hs0 : 0 < fe.fileObject.size) (hs1 : fe.fileObject.size ≤ 50000000)
    (hdec : fe.fileObject.contents = DecodeResult.ok doc)
    (htruthy : pyTruthy doc = true) :
    ∀ ev ∈ yieldedEvents (PlistParser.Parse self fe),
      ∃ p ∈ self.plugins, ∃ orig ∈ (p.Process fe.basename doc).events,
        ev = { orig with plugin := p.plugin_name } ∧
        ev.plugin = p.plugin_name ∧ ev.data = orig.data := by
  have hT := Parse_success_trace self fe doc hs0 hs1 hdec htruthy
  intro ev hev
  rw [hT, yieldedEvents_eff_cons, yieldedEvents_eff_cons,
    yieldedEvents_eff_cons, yieldedEvents_eff_cons, yieldedEvents_eff_cons,
    yieldedEvents_append, yieldedEvents_dispatchEvents] at hev
  have : yieldedEvents [GenEvent.eff Effect.close, GenEvent.stop] = [] := rfl
  rw [this, List.append_nil, List.mem_flatMap] at hev
  rcases hev with ⟨p, hp, hev⟩
  rcases List.mem_map.mp hev with ⟨orig, horig, rfl⟩
  exact ⟨p, hp, orig, horig, rfl, rfl, rfl⟩

/-- Witness for C7: the record yielded by sample plugin `H1` is
`sampleEvent1` with only its `plugin` attribute set to `"H1"`. -/
theorem Parse_stamps_plugin_attribution_witness :
    { sampleEvent1 with plugin := "H1" } ∈
      yieldedEvents ((PlistParser.init [pluginH1] none).Parse entryOk) ∧
    ∃ p ∈ (PlistParser.init [pluginH1] none).plugins,
      ∃ orig ∈ (p.Process entryOk.basename sampleDoc).events,
        ({ sampleEvent1 with plugin := "H1" } : EventObject) =
          { orig with plugin := p.plugin_name } ∧
        ({ sampleEvent1 with plugin := "H1" } : EventObject).plugin =
          p.plugin_name ∧
        ({ sampleEvent1 with plugin := "H1" } : EventObject).data =
          orig.data :=
  ⟨by decide,
    Parse_stamps_plugin_attribution (PlistParser.init [pluginH1] none)
      entryOk sampleDoc (by decide) (by decide) rfl rfl
      { sampleEvent1 with plugin := "H1" } (by decide)⟩

/-- C8: with `pluginFilter = {"A"}` the registry holds only plugins whose
identifier is `"A"`, so a plugin named `"B"` is never invoked during
`Parse` on any input; with the filter absent, every available plugin is
registered. -/
theorem Parse_plugin_filter (available : List PlistPlugin) (fe : FileEntry) :
    (∀ p ∈ (PlistParser.init available (some ["A"])).plugins,
      p.plugin_name = "A") ∧
    (∀ s, s ≠ "A" →
      GenEvent.eff (Effect.processCall s) ∉
        (PlistParser.init available (some ["A"])).Parse fe) ∧
    (PlistParser.init available none).plugins = available := by
  have hreg : ∀ p ∈ (PlistParser.init available (some ["A"])).plugins,
      p.plugin_name = "A" := by
    intro p hp
    simp only [PlistParser.init, GetRegisteredPlugins] at hp
    rcases List.mem_filter.mp hp with ⟨_, hname⟩
    simpa using hname
  refine ⟨hreg, ?_, rfl⟩
  intro s hs hmem
  rcases processCall_mem_Parse _ fe s hmem with ⟨p, hp, hname⟩
  exact hs (hname ▸ hreg p hp)

/-- Witness for C8: with available plugins `A` and `B` and filter `{"A"}`,
only `A` is registered and `B`'s `Process` is never called on the sample
entry; without a filter, both are registered. -/
theorem Parse_plugin_filter_witness :
    (∀ p ∈ (PlistParser.init [pluginA, pluginB] (some ["A"])).plugins,
      p.plugin_name = "A") ∧
    GenEvent.eff (Effect.processCall "B") ∉
      (PlistParser.init [pluginA, pluginB] (some ["A"])).Parse entryOk ∧
    (PlistParser.init [pluginA, pluginB] none).plugins =
      [pluginA, pluginB] :=
  ⟨(Parse_plugin_filter [pluginA, pluginB] entryOk).1,
    (Parse_plugin_filter [pluginA, pluginB] entryOk).2.1 "B" (by decide),
    (Parse_plugin_filter [pluginA, pluginB] entryOk).2.2⟩

/-- C9: whenever `GetTopLevel` returns without raising, the returned
top-level object is truthy; consequently the second emptiness check inside
`Parse` is dead code — `Parse` behaves identically with that branch
removed. -/
theorem GetTopLevel_truthy_recheck_unreachable :
    (∀ (fo : FileObject) (n : String) (doc : PlistVal),
      (GetTopLevel fo n).2 = Except.ok doc → pyTruthy doc = true) ∧
    (∀ (self : PlistParser) (fe : FileEntry),
      PlistParser.Parse self fe = parseWithoutRecheck self fe) := by
  have hok : ∀ (fo : FileObject) (n : String) (doc : PlistVal),
      (GetTopLevel fo n).2 = Except.ok doc → pyTruthy doc = true := by
    intro fo n doc h
    cases hc : fo.contents with
    | ok t =>
      simp only [GetTopLevel, hc] at h
      by_cases hpt : pyTruthy t = true
      · rw [if_pos hpt] at h
        injection h with h'
        rw [← h']
        exact hpt
      · rw [if_neg hpt] at h
        exact absurd h (by simp)
    | formatError m => simp [GetTopLevel, hc] at h
    | decodeError m => simp [GetTopLevel, hc] at h
    | overflowError m => simp [GetTopLevel, hc] at h
  refine ⟨hok, ?_⟩
  intro self fe
  unfold PlistParser.Parse parseWithoutRecheck
  split
  · rfl
  split
  · rfl
  congr 1
  split
  · rfl
  rename_i t ht
  have htruthy := hok fe.fileObject fe.name t ht
  rw [if_neg (by simp [htruthy])]

/-- Witness for C9: on the sample entry, `GetTopLevel` returns the truthy
sample document and `Parse` equals the recheck-free variant. -/
theorem GetTopLevel_truthy_recheck_unreachable_witness :
    pyTruthy sampleDoc = true ∧
    (PlistParser.init [pluginH1] none).Parse entryOk =
      parseWithoutRecheck (PlistParser.init [pluginH1] none) entryOk :=
  ⟨GetTopLevel_truthy_recheck_unreachable.1 entryOk.fileObject entryOk.name
      sampleDoc rfl,
    GetTopLevel_truthy_recheck_unreachable.2
      (PlistParser.init [pluginH1] none) entryOk⟩

/-- C10: calling `Parse` performs no observable effect — it only allocates
a suspended generator (`parseCallEffects` is empty by Python
generator-function semantics) — and every failure of the validation and
decode steps surfaces at the caller's first advancement of the returned
sequence: any raise in a run lies within the first advancement, and for a
size-violating input the first advancement performs exactly the size query,
the close, and the size-violation raise. -/
theorem Parse_is_lazy_generator (self : PlistParser) (fe : FileEntry) :
    parseCallEffects self fe = [] ∧
    (∀ m, GenEvent.raiseUPF m ∈ PlistParser.Parse self fe →
      GenEvent.raiseUPF m ∈ firstAdvance (PlistParser.Parse self fe)) ∧
    (fe.fileObject.size ≤ 0 →
      firstAdvance (PlistParser.Parse self fe) =
        [GenEvent.eff Effect.getFileObject, GenEvent.eff Effect.getSize,
          GenEvent.eff Effect.close,
          GenEvent.raiseUPF (msgSizeLE0 fe.fileObject.size)]) := by
  refine ⟨rfl, ?_, ?_⟩
  · intro m hm
    rcases Parse_cases self fe with ⟨m', hT⟩ | ⟨m', hT⟩ | ⟨doc, _, hT⟩
    · rw [hT] at hm ⊢
      exact hm
    · rw [hT] at hm ⊢
      exact hm
    · rw [hT] at hm
      simp at hm
      exact absurd hm (dispatch_no_raise self.plugins fe.basename doc m)
  · intro h
    have hT : PlistParser.Parse self fe =
        [GenEvent.eff Effect.getFileObject, GenEvent.eff Effect.getSize,
          GenEvent.eff Effect.close,
          GenEvent.raiseUPF (msgSizeLE0 fe.fileObject.size)] := by
      unfold PlistParser.Parse
      rw [if_pos h]
    rw [hT]
    rfl

/-- Witness for C10: calling `Parse` on the zero-size entry has no effect
at call time, and the size violation surfaces within the first
advancement, which performs exactly the size query, the close and the
raise. -/
theorem Parse_is_lazy_generator_witness :
    parseCallEffects (PlistParser.init [pluginH1] none) entryZeroSize = [] ∧
    GenEvent.raiseUPF (msgSizeLE0 0) ∈
      firstAdvance ((PlistParser.init [pluginH1] none).Parse entryZeroSize) ∧
    firstAdvance ((PlistParser.init [pluginH1] none).Parse entryZeroSize) =
      [GenEvent.eff Effect.getFileObject, GenEvent.eff Effect.getSize,
        GenEvent.eff Effect.close, GenEvent.raiseUPF (msgSizeLE0 0)] :=
  ⟨(Parse_is_lazy_generator (PlistParser.init [pluginH1] none)
      entryZeroSize).1,
    (Parse_is_lazy_generator (PlistParser.init [pluginH1] none)
      entryZeroSize).2.1 (msgSizeLE0 0) (by decide),
    (Parse_is_lazy_generator (PlistParser.init [pluginH1] none)
      entryZeroSize).2.2 (by decide)⟩

end Plaso
